import Mathlib

/-! SHA hardware-abstraction layer (components/hal/sha_hal.c)

A shallow embedding of the SHA HAL.  The HAL is a thin sequencing layer over
register-level primitives (`sha_ll_*`, `gdma_ll_*`, `crypto_dma_ll_*`) that are
declared in headers outside this file.  The hardware behind those primitives is
a parameter of the development (`Engine`), and every primitive call is recorded
in an operation log, so that the order in which the HAL drives the hardware can
be stated and proved.

Conventions
* 32-bit words, `size_t` counts and register values are natural numbers; the
  HAL only copies them and compares them with zero.
* A C buffer (`void *` / `uint32_t *`) is the map from word offset to word.
* The busy-wait loop takes a fuel argument counting busy queries; `none` means
  "has not returned within that many queries".
-/

namespace ShaHal

/-! ## Target configuration and the digest-size table -/

/-- Modelled from the spec: the enumeration esp_sha_type is declared in
hal/sha_types.h, which is not part of this file.  The constructors are the
variants named in sha_hal.c; `other` stands for any further enumerator value,
which reaches the `default:` branch of every switch. -/
inductive esp_sha_type where
  | SHA1
  | SHA2_224
  | SHA2_256
  | SHA2_384
  | SHA2_512
  | SHA2_512224
  | SHA2_512256
  | SHA2_512T
  | other (code : Nat)
  deriving DecidableEq

/-- Modelled from the spec: the preprocessor symbols of sdkconfig / soc/soc_caps.h
that sha_hal.c tests or passes on; their values are fixed per build. -/
structure soc_caps where
  CONFIG_IDF_TARGET_ESP32 : Bool
  SOC_SHA_SUPPORT_SHA384 : Bool
  SOC_SHA_SUPPORT_SHA512 : Bool
  SOC_SHA_SUPPORT_SHA512_T : Bool
  SOC_GDMA_SUPPORT_EXTMEM : Bool
  SOC_GDMA_SHA_DMA_CHANNEL : Nat
  GDMA_LL_PERIPH_ID_SHA : Nat
  GDMA_OUT_EXT_MEM_BK_SIZE_16B : Nat
  CRYPTO_DMA_SHA : Nat

/-- The DMA backend compiled in.  The two definitions of sha_hal_dma_init are
guarded by SOC_SHA_GENERAL_DMA and SOC_SHA_CRYPTO_DMA; a build that compiles
has exactly one of them. -/
inductive dma_backend where
  | SOC_SHA_GENERAL_DMA
  | SOC_SHA_CRYPTO_DMA
  deriving DecidableEq

/-- The constant SHA1_STATE_LEN_WORDS, defined as `(160 / 32)`. -/
def SHA1_STATE_LEN_WORDS : Nat := 160 / 32

/-- The constant SHA256_STATE_LEN_WORDS, defined as `(256 / 32)`. -/
def SHA256_STATE_LEN_WORDS : Nat := 256 / 32

/-- The constant SHA512_STATE_LEN_WORDS, defined as `(512 / 32)`. -/
def SHA512_STATE_LEN_WORDS : Nat := 512 / 32

/-- The state_length of the `#if CONFIG_IDF_TARGET_ESP32` branch (lines 38-51). -/
def state_length_esp32 : esp_sha_type → Nat
  | .SHA1 => SHA1_STATE_LEN_WORDS
  | .SHA2_256 => SHA256_STATE_LEN_WORDS
  | .SHA2_384 => SHA512_STATE_LEN_WORDS
  | .SHA2_512 => SHA512_STATE_LEN_WORDS
  | _ => 0

/-- The state_length of the `#else` branch (lines 55-80); a `case` label inside
an `#if` whose symbol is off is absent, so that variant reaches `default:`. -/
def state_length_soc (cfg : soc_caps) : esp_sha_type → Nat
  | .SHA1 => SHA1_STATE_LEN_WORDS
  | .SHA2_224 => SHA256_STATE_LEN_WORDS
  | .SHA2_256 => SHA256_STATE_LEN_WORDS
  | .SHA2_384 => if cfg.SOC_SHA_SUPPORT_SHA384 then SHA512_STATE_LEN_WORDS else 0
  | .SHA2_512 => if cfg.SOC_SHA_SUPPORT_SHA512 then SHA512_STATE_LEN_WORDS else 0
  | .SHA2_512224 => if cfg.SOC_SHA_SUPPORT_SHA512_T then SHA512_STATE_LEN_WORDS else 0
  | .SHA2_512256 => if cfg.SOC_SHA_SUPPORT_SHA512_T then SHA512_STATE_LEN_WORDS else 0
  | .SHA2_512T => if cfg.SOC_SHA_SUPPORT_SHA512_T then SHA512_STATE_LEN_WORDS else 0
  | .other _ => 0

/-- Return state size (in words) for a given SHA type. -/
def state_length (cfg : soc_caps) (type : esp_sha_type) : Nat :=
  if cfg.CONFIG_IDF_TARGET_ESP32 then state_length_esp32 type else state_length_soc cfg type

/-- The digest-size table as the specification words it: 5 words for SHA1; 8 for
SHA2_256, and for SHA2_224 off ESP32; 16 for SHA2_384 / SHA2_512 (always on
ESP32, elsewhere under the matching SOC_SHA_SUPPORT symbol) and for the three
SHA-512/t forms under SOC_SHA_SUPPORT_SHA512_T, a symbol of the targets other
than ESP32; 0 for everything else. -/
def spec_digest_size (cfg : soc_caps) (type : esp_sha_type) : Nat :=
  if type = .SHA1 then 5
  else if type = .SHA2_256 then 8
  else if type = .SHA2_224 ∧ cfg.CONFIG_IDF_TARGET_ESP32 = false then 8
  else if type = .SHA2_384 ∧
      (cfg.CONFIG_IDF_TARGET_ESP32 = true ∨ cfg.SOC_SHA_SUPPORT_SHA384 = true) then 16
  else if type = .SHA2_512 ∧
      (cfg.CONFIG_IDF_TARGET_ESP32 = true ∨ cfg.SOC_SHA_SUPPORT_SHA512 = true) then 16
  else if (type = .SHA2_512224 ∨ type = .SHA2_512256 ∨ type = .SHA2_512T) ∧
      cfg.CONFIG_IDF_TARGET_ESP32 = false ∧ cfg.SOC_SHA_SUPPORT_SHA512_T = true then 16
  else 0

/-! ## Hardware interface -/

/-- One call of a register-level primitive, with its arguments.  `sha_ll_busy`
carries the value the query returned. -/
inductive Op where
  | sha_ll_busy (result : Bool)
  | sha_ll_fill_text_block (data_block : Nat → Nat) (block_word_len : Nat)
  | sha_ll_start_block (sha_type : esp_sha_type)
  | sha_ll_continue_block (sha_type : esp_sha_type)
  | sha_ll_start_dma (sha_type : esp_sha_type)
  | sha_ll_continue_dma (sha_type : esp_sha_type)
  | sha_ll_set_block_num (num_blocks : Nat)
  | sha_ll_load (sha_type : esp_sha_type)
  | sha_ll_read_digest (sha_type : esp_sha_type) (digest_word_len : Nat)
  | sha_ll_write_digest (sha_type : esp_sha_type) (digest_state : Nat → Nat)
      (digest_word_len : Nat)
  | sha_ll_t_string_set (t_string : Nat)
  | sha_ll_t_len_set (t_len : Nat)
  | gdma_ll_tx_enable_descriptor_burst (channel : Nat) (enable : Bool)
  | gdma_ll_tx_enable_data_burst (channel : Nat) (enable : Bool)
  | gdma_ll_tx_enable_auto_write_back (channel : Nat) (enable : Bool)
  | gdma_ll_tx_connect_to_periph (channel : Nat) (periph_id : Nat)
  | gdma_ll_tx_extend_fifo_size_to (channel : Nat) (size : Nat)
  | gdma_ll_tx_set_block_size_psram (channel : Nat) (size_index : Nat)
  | gdma_ll_tx_set_desc_addr (channel : Nat) (addr : Nat)
  | gdma_ll_rx_reset_channel (channel : Nat)
  | gdma_ll_tx_reset_channel (channel : Nat)
  | gdma_ll_tx_start (channel : Nat)
  | crypto_dma_ll_set_mode (mode : Nat)
  | crypto_dma_ll_reset
  | crypto_dma_ll_outlink_set (addr : Nat)
  | crypto_dma_ll_outlink_start

/-- Modelled from the spec: the hardware behind the register-level primitives
of hal/sha_ll.h, hal/gdma_ll.h and hal/crypto_dma_ll.h, none of which is part
of this file.  The hardware is an arbitrary state machine: `busy` is the value
the busy register reads, `poll` the progress the hardware makes over one busy
query, `exec` the effect of every other primitive, and `digest_reg` the word a
digest read obtains at a given offset. -/
structure Engine (σ : Type) where
  busy : σ → Bool
  poll : σ → σ
  exec : Op → σ → σ
  digest_reg : esp_sha_type → σ → Nat → Nat

/-- Hardware state together with the log of primitive calls made so far. -/
structure Hal (σ : Type) where
  hw : σ
  log : List Op

variable {σ : Type}

/-- A primitive without return value: the hardware takes its effect and the call
is logged. -/
def issue (E : Engine σ) (op : Op) (s : Hal σ) : Hal σ :=
  ⟨E.exec op s.hw, s.log ++ [op]⟩

/-- Query-busy primitive: returns the busy flag; the query is logged with the
value it returned. -/
def sha_ll_busy (E : Engine σ) (s : Hal σ) : Bool × Hal σ :=
  (E.busy s.hw, ⟨E.poll s.hw, s.log ++ [Op.sha_ll_busy (E.busy s.hw)]⟩)

/-- Modelled from the spec: sha_ll_read_digest (hal/sha_ll.h) copies
`digest_word_len` words of the engine's readable digest registers into the
caller's buffer, leaving the rest of the buffer as it was. -/
def sha_ll_read_digest (E : Engine σ) (sha_type : esp_sha_type) (digest_state : Nat → Nat)
    (digest_word_len : Nat) (s : Hal σ) : (Nat → Nat) × Hal σ :=
  (fun i => if i < digest_word_len then E.digest_reg sha_type s.hw i else digest_state i,
   issue E (Op.sha_ll_read_digest sha_type digest_word_len) s)

/-- The `(uint32_t)input` cast of a descriptor pointer. -/
def ptr_to_uint32 (input : Nat) : Nat := input % 2 ^ 32

/-! ## The HAL operations -/

/-- The busy-wait of sha_hal_wait_idle: `while (sha_ll_busy()) { }`.  The fuel
bounds the number of busy queries; the loop body is empty, so a query is all
an iteration does. -/
def sha_hal_wait_idle (E : Engine σ) : Nat → Hal σ → Option (Hal σ)
  | 0, _ => none
  | fuel + 1, s =>
    match sha_ll_busy E s with
    | (true, s1) => sha_hal_wait_idle E fuel s1
    | (false, s1) => some s1

/-- Hash a single block. -/
def sha_hal_hash_block (E : Engine σ) (fuel : Nat) (sha_type : esp_sha_type)
    (data_block : Nat → Nat) (block_word_len : Nat) (first_block : Bool) (s : Hal σ) :
    Option (Hal σ) :=
  match sha_hal_wait_idle E fuel s with
  | none => none
  | some s1 =>
    let s2 := issue E (Op.sha_ll_fill_text_block data_block block_word_len) s1
    if first_block then some (issue E (Op.sha_ll_start_block sha_type) s2)
    else some (issue E (Op.sha_ll_continue_block sha_type) s2)

/-- The sha_hal_dma_init of the SOC_SHA_GENERAL_DMA build (lines 102-125). -/
def sha_hal_dma_init_general (cfg : soc_caps) (E : Engine σ) (input : Nat) (s : Hal σ) : Hal σ :=
  let ch := cfg.SOC_GDMA_SHA_DMA_CHANNEL
  let s1 := issue E (Op.gdma_ll_tx_enable_descriptor_burst ch false) s
  let s2 := issue E (Op.gdma_ll_tx_enable_data_burst ch false) s1
  let s3 := issue E (Op.gdma_ll_tx_enable_auto_write_back ch false) s2
  let s4 := issue E (Op.gdma_ll_tx_connect_to_periph ch cfg.GDMA_LL_PERIPH_ID_SHA) s3
  let s5 :=
    if cfg.SOC_GDMA_SUPPORT_EXTMEM then
      issue E (Op.gdma_ll_tx_set_block_size_psram ch cfg.GDMA_OUT_EXT_MEM_BK_SIZE_16B)
        (issue E (Op.gdma_ll_tx_extend_fifo_size_to ch 40) s4)
    else s4
  let s6 := issue E (Op.gdma_ll_tx_set_desc_addr ch (ptr_to_uint32 input)) s5
  let s7 := issue E (Op.gdma_ll_rx_reset_channel ch) s6
  let s8 := issue E (Op.gdma_ll_tx_reset_channel ch) s7
  issue E (Op.gdma_ll_tx_start ch) s8

/-- The sha_hal_dma_init of the SOC_SHA_CRYPTO_DMA build (lines 131-138). -/
def sha_hal_dma_init_crypto (cfg : soc_caps) (E : Engine σ) (input : Nat) (s : Hal σ) : Hal σ :=
  let s1 := issue E (Op.crypto_dma_ll_set_mode cfg.CRYPTO_DMA_SHA) s
  let s2 := issue E Op.crypto_dma_ll_reset s1
  let s3 := issue E (Op.crypto_dma_ll_outlink_set (ptr_to_uint32 input)) s2
  issue E Op.crypto_dma_ll_outlink_start s3

/-- The sha_hal_dma_init that the build selects. -/
def sha_hal_dma_init (cfg : soc_caps) (dma : dma_backend) (E : Engine σ) (input : Nat)
    (s : Hal σ) : Hal σ :=
  match dma with
  | .SOC_SHA_GENERAL_DMA => sha_hal_dma_init_general cfg E input s
  | .SOC_SHA_CRYPTO_DMA => sha_hal_dma_init_crypto cfg E input s

/-- Hashes a number of message blocks using DMA (SOC_SHA_SUPPORT_DMA builds). -/
def sha_hal_hash_dma (cfg : soc_caps) (dma : dma_backend) (E : Engine σ) (fuel : Nat)
    (sha_type : esp_sha_type) (input : Nat) (num_blocks : Nat) (first_block : Bool)
    (s : Hal σ) : Option (Hal σ) :=
  match sha_hal_wait_idle E fuel s with
  | none => none
  | some s1 =>
    let s2 := sha_hal_dma_init cfg dma E input s1
    let s3 := issue E (Op.sha_ll_set_block_num num_blocks) s2
    if first_block then some (issue E (Op.sha_ll_start_dma sha_type) s3)
    else some (issue E (Op.sha_ll_continue_dma sha_type) s3)

/-- How a call of sha_hal_read_digest ends: it returns to the caller, or it
calls `abort()`.  Both carry the caller's buffer and the hardware as left. -/
inductive Exit (σ : Type) where
  | returned (digest_state : Nat → Nat) (s : Hal σ)
  | aborted (digest_state : Nat → Nat) (s : Hal σ)

/-- The fault-injection loop of sha_hal_read_digest,
`for (int i = 0; i < word_len; i++) { if (digest_state_words[i] != 0) return; }`,
from index `i` with `remaining = word_len - i` iterations left.  `true`: a
non-zero word was met and the function returns; `false`: the loop ran to its
end, and `abort()` is next. -/
def fault_check_loop (digest_state_words : Nat → Nat) : Nat → Nat → Bool
  | 0, _ => false
  | remaining + 1, i =>
    if digest_state_words i ≠ 0 then true
    else fault_check_loop digest_state_words remaining (i + 1)

/-- Reads the current message digest from the SHA engine. -/
def sha_hal_read_digest (cfg : soc_caps) (E : Engine σ) (fuel : Nat) (sha_type : esp_sha_type)
    (digest_state : Nat → Nat) (s : Hal σ) : Option (Exit σ) :=
  let s1 := issue E (Op.sha_ll_load sha_type) s
  let word_len := state_length cfg sha_type
  match sha_hal_wait_idle E fuel s1 with
  | none => none
  | some s2 =>
    let r := sha_ll_read_digest E sha_type digest_state word_len s2
    if fault_check_loop r.1 word_len 0 then some (Exit.returned r.1 r.2)
    else some (Exit.aborted r.1 r.2)

/-- Writes the message digest to the SHA engine (SOC_SHA_SUPPORT_RESUME builds). -/
def sha_hal_write_digest (cfg : soc_caps) (E : Engine σ) (sha_type : esp_sha_type)
    (digest_state : Nat → Nat) (s : Hal σ) : Hal σ :=
  issue E (Op.sha_ll_write_digest sha_type digest_state (state_length cfg sha_type)) s

/-- Calculates and sets the initial digest for SHA512_t (SOC_SHA_SUPPORT_SHA512_T
builds). -/
def sha_hal_sha512_init_hash (E : Engine σ) (fuel : Nat) (t_string : Nat) (t_len : Nat)
    (s : Hal σ) : Option (Hal σ) :=
  let s1 := issue E (Op.sha_ll_t_string_set t_string) s
  let s2 := issue E (Op.sha_ll_t_len_set t_len) s1
  let s3 := issue E (Op.sha_ll_start_block esp_sha_type.SHA2_512T) s2
  sha_hal_wait_idle E fuel s3

/-- The hardware state and log a call of sha_hal_read_digest leaves behind. -/
def Exit.hal : Exit σ → Hal σ
  | .returned _ s => s
  | .aborted _ s => s

/-! ## Vocabulary of the properties -/

/-- The engine, started in hardware state `hw`, reports busy on its first `n`
busy queries and not-busy on query `n + 1`. -/
def BusyFor (E : Engine σ) (hw : σ) (n : Nat) : Prop :=
  (∀ k, k < n → E.busy (E.poll^[k] hw) = true) ∧ E.busy (E.poll^[n] hw) = false

instance (E : Engine σ) (hw : σ) (n : Nat) : Decidable (BusyFor E hw n) := by
  unfold BusyFor; infer_instance

/-- The engine never reports not-busy from hardware state `hw`. -/
def NeverIdle (E : Engine σ) (hw : σ) : Prop :=
  ∀ k, E.busy (E.poll^[k] hw) = true

/-- The log of a wait that sees `n` busy answers and then a not-busy one. -/
def wait_log (n : Nat) : List Op :=
  List.replicate n (Op.sha_ll_busy true) ++ [Op.sha_ll_busy false]

/-- The trigger a block hash issues. -/
def block_trigger (first_block : Bool) (sha_type : esp_sha_type) : Op :=
  if first_block then Op.sha_ll_start_block sha_type else Op.sha_ll_continue_block sha_type

/-- The trigger a DMA hash issues. -/
def dma_trigger (first_block : Bool) (sha_type : esp_sha_type) : Op :=
  if first_block then Op.sha_ll_start_dma sha_type else Op.sha_ll_continue_dma sha_type

/-- The primitive calls sha_hal_dma_init makes on the general DMA backend. -/
def general_dma_ops (cfg : soc_caps) (input : Nat) : List Op :=
  [Op.gdma_ll_tx_enable_descriptor_burst cfg.SOC_GDMA_SHA_DMA_CHANNEL false,
   Op.gdma_ll_tx_enable_data_burst cfg.SOC_GDMA_SHA_DMA_CHANNEL false,
   Op.gdma_ll_tx_enable_auto_write_back cfg.SOC_GDMA_SHA_DMA_CHANNEL false,
   Op.gdma_ll_tx_connect_to_periph cfg.SOC_GDMA_SHA_DMA_CHANNEL cfg.GDMA_LL_PERIPH_ID_SHA] ++
  (if cfg.SOC_GDMA_SUPPORT_EXTMEM then
    [Op.gdma_ll_tx_extend_fifo_size_to cfg.SOC_GDMA_SHA_DMA_CHANNEL 40,
     Op.gdma_ll_tx_set_block_size_psram cfg.SOC_GDMA_SHA_DMA_CHANNEL
       cfg.GDMA_OUT_EXT_MEM_BK_SIZE_16B]
   else []) ++
  [Op.gdma_ll_tx_set_desc_addr cfg.SOC_GDMA_SHA_DMA_CHANNEL input,
   Op.gdma_ll_rx_reset_channel cfg.SOC_GDMA_SHA_DMA_CHANNEL,
   Op.gdma_ll_tx_reset_channel cfg.SOC_GDMA_SHA_DMA_CHANNEL,
   Op.gdma_ll_tx_start cfg.SOC_GDMA_SHA_DMA_CHANNEL]

/-- The primitive calls sha_hal_dma_init makes on the crypto DMA backend. -/
def crypto_dma_ops (cfg : soc_caps) (input : Nat) : List Op :=
  [Op.crypto_dma_ll_set_mode cfg.CRYPTO_DMA_SHA,
   Op.crypto_dma_ll_reset,
   Op.crypto_dma_ll_outlink_set input,
   Op.crypto_dma_ll_outlink_start]

/-- The primitive calls sha_hal_dma_init makes on the backend compiled in. -/
def dma_init_ops (cfg : soc_caps) (dma : dma_backend) (input : Nat) : List Op :=
  match dma with
  | .SOC_SHA_GENERAL_DMA => general_dma_ops cfg input
  | .SOC_SHA_CRYPTO_DMA => crypto_dma_ops cfg input

/-- The buffer after the digest copy of sha_hal_read_digest: the first
state_length words come from the engine in hardware state `hw`, the rest is
the caller's. -/
def copied_digest (cfg : soc_caps) (E : Engine σ) (sha_type : esp_sha_type)
    (digest_state : Nat → Nat) (hw : σ) : Nat → Nat :=
  fun i => if i < state_length cfg sha_type then E.digest_reg sha_type hw i else digest_state i

/-- The hardware state in which sha_hal_read_digest copies the digest: after the
load and `n + 1` busy queries. -/
def hw_at_read (E : Engine σ) (sha_type : esp_sha_type) (hw : σ) (n : Nat) : σ :=
  E.poll^[n + 1] (E.exec (Op.sha_ll_load sha_type) hw)

/-- The hardware and log sha_hal_read_digest leaves when the engine was busy for
`n` queries after the load. -/
def hal_after_read (cfg : soc_caps) (E : Engine σ) (sha_type : esp_sha_type) (s : Hal σ)
    (n : Nat) : Hal σ :=
  ⟨E.exec (Op.sha_ll_read_digest sha_type (state_length cfg sha_type))
      (hw_at_read E sha_type s.hw n),
   s.log ++ ([Op.sha_ll_load sha_type] ++
     (List.replicate n (Op.sha_ll_busy true) ++
       [Op.sha_ll_busy false,
        Op.sha_ll_read_digest sha_type (state_length cfg sha_type)]))⟩

/-- The hardware state after a list of primitives took effect in order. -/
def exec_all (E : Engine σ) (ops : List Op) (hw : σ) : σ :=
  ops.foldl (fun h op => E.exec op h) hw

/-- Is the call one that turns off a DMA burst mode or the automatic
write-back? -/
def Op.disables_burst_or_write_back : Op → Bool
  | .gdma_ll_tx_enable_descriptor_burst _ false => true
  | .gdma_ll_tx_enable_data_burst _ false => true
  | .gdma_ll_tx_enable_auto_write_back _ false => true
  | _ => false

/-- Does a sequence of primitive calls open with a completed idle wait, that is,
with busy queries only up to and including one answered not-busy? -/
def opens_with_idle_wait : List Op → Bool
  | Op.sha_ll_busy true :: rest => opens_with_idle_wait rest
  | Op.sha_ll_busy false :: _ => true
  | _ => false

/-- Is the call a busy query? -/
def Op.is_busy_query : Op → Bool
  | .sha_ll_busy _ => true
  | _ => false

/-! ## A simulated engine -/

/-- State of the simulated engine: the number of busy queries it will still
answer with busy (`none`: it is stuck and stays busy for ever), the latency a
trigger or a load sets, and its digest registers. -/
structure SimState where
  busy_left : Option Nat
  latency : Nat
  digest : Nat → Nat

/-- Modelled from the spec: the simulated engine of the testable properties.  It
echoes written state (a digest write stores the words, a digest read returns
them), goes busy for `latency` queries on a trigger or a load, and reports idle
on query `n + 1` when `busy_left = some n`. -/
def simEngine : Engine SimState where
  busy s :=
    match s.busy_left with
    | none => true
    | some 0 => false
    | some (_ + 1) => true
  poll s := { s with busy_left := s.busy_left.map Nat.pred }
  exec op s :=
    match op with
    | .sha_ll_write_digest _ w len =>
      { s with digest := fun i => if i < len then w i else s.digest i }
    | .sha_ll_start_block _ => { s with busy_left := s.busy_left.map (fun _ => s.latency) }
    | .sha_ll_continue_block _ => { s with busy_left := s.busy_left.map (fun _ => s.latency) }
    | .sha_ll_start_dma _ => { s with busy_left := s.busy_left.map (fun _ => s.latency) }
    | .sha_ll_continue_dma _ => { s with busy_left := s.busy_left.map (fun _ => s.latency) }
    | .sha_ll_load _ => { s with busy_left := s.busy_left.map (fun _ => s.latency) }
    | _ => s
  digest_reg _ s i := s.digest i

/-- An engine satisfying this echoes written state: a digest read obtains the
words the last digest write pushed, and neither a load nor a busy query
disturbs them. -/
structure Echoes (E : Engine σ) : Prop where
  write : ∀ (t : esp_sha_type) (w : Nat → Nat) (len : Nat) (hw : σ) (i : Nat), i < len →
    E.digest_reg t (E.exec (Op.sha_ll_write_digest t w len) hw) i = w i
  load : ∀ (t : esp_sha_type) (hw : σ) (i : Nat),
    E.digest_reg t (E.exec (Op.sha_ll_load t) hw) i = E.digest_reg t hw i
  poll : ∀ (t : esp_sha_type) (hw : σ) (i : Nat),
    E.digest_reg t (E.poll hw) i = E.digest_reg t hw i

/-- A configuration of the ESP32 target. -/
def cfg_esp32 : soc_caps :=
  ⟨true, false, false, false, false, 0, 7, 0, 1⟩

/-- A configuration of a later target with every SHA capability. -/
def cfg_full : soc_caps :=
  ⟨false, true, true, true, true, 0, 7, 0, 1⟩

/-- A configuration of a later target without the 384/512-bit variants. -/
def cfg_small : soc_caps :=
  ⟨false, false, false, false, false, 0, 7, 0, 1⟩

/-- A simulated engine state: idle after `n` busy answers, zero digest. -/
def sim_zero (n latency : Nat) : Hal SimState :=
  ⟨⟨some n, latency, fun _ => 0⟩, []⟩

/-- A simulated engine state: idle after `n` busy answers, digest word `i`
holding `i + 1`. -/
def sim_counting (n latency : Nat) : Hal SimState :=
  ⟨⟨some n, latency, fun i => i + 1⟩, []⟩

/-- A simulated engine state that stays busy for ever. -/
def sim_stuck : Hal SimState :=
  ⟨⟨none, 0, fun i => i + 1⟩, []⟩

/-! ## The digest-size table -/

/-- C1. On every target configuration and for every hash variant, state_length
returns the table value in 32-bit words (5 for SHA1; 8 for SHA2_256, and for
SHA2_224 off ESP32; 16 for SHA2_384 / SHA2_512 and, where configured, the
SHA-512/t forms; 0 otherwise), so the result is always one of 0, 5, 8, 16. -/
theorem state_length_table (cfg : soc_caps) (type : esp_sha_type) :
    state_length cfg type = spec_digest_size cfg type ∧
    (state_length cfg type = 0 ∨ state_length cfg type = 5 ∨
      state_length cfg type = 8 ∨ state_length cfg type = 16) := by
  obtain ⟨esp32, s384, s512, s512t, ext, ch, pid, bk, mode⟩ := cfg
  cases type <;> cases esp32 <;> cases s384 <;> cases s512 <;> cases s512t <;>
    simp [state_length, state_length_esp32, state_length_soc, spec_digest_size,
      SHA1_STATE_LEN_WORDS, SHA256_STATE_LEN_WORDS, SHA512_STATE_LEN_WORDS]

/-! ## The busy-wait -/

/-- While the engine answers busy on each of the first `fuel` queries, the wait
has not returned within `fuel` queries. -/
theorem wait_idle_none (E : Engine σ) :
    ∀ (fuel : Nat) (s : Hal σ), (∀ k, k < fuel → E.busy (E.poll^[k] s.hw) = true) →
      sha_hal_wait_idle E fuel s = none := by
  intro fuel
  induction fuel with
  | zero => intro s _; rfl
  | succ f ih =>
    intro s h
    have h0 : E.busy s.hw = true := h 0 (Nat.succ_pos f)
    have hshift : ∀ k, k < f → E.busy (E.poll^[k] (E.poll s.hw)) = true := by
      intro k hk
      have := h (k + 1) (Nat.succ_lt_succ hk)
      simpa [Function.iterate_succ_apply] using this
    have := ih ⟨E.poll s.hw, s.log ++ [Op.sha_ll_busy (E.busy s.hw)]⟩ hshift
    simp only [sha_hal_wait_idle, sha_ll_busy, h0]
    simpa [h0] using this

/-- An engine busy for `n` queries and idle on the next one lets the wait return
after `n + 1` queries, which are all it does. -/
theorem wait_idle_some (E : Engine σ) :
    ∀ (n fuel : Nat) (s : Hal σ), BusyFor E s.hw n → n < fuel →
      sha_hal_wait_idle E fuel s = some ⟨E.poll^[n + 1] s.hw, s.log ++ wait_log n⟩ := by
  intro n
  induction n with
  | zero =>
    intro fuel s h hf
    obtain ⟨f, rfl⟩ : ∃ f, fuel = f + 1 := ⟨fuel - 1, by omega⟩
    have h0 : E.busy s.hw = false := by simpa using h.2
    simp [sha_hal_wait_idle, sha_ll_busy, h0, wait_log]
  | succ m ih =>
    intro fuel s h hf
    obtain ⟨f, rfl⟩ : ∃ f, fuel = f + 1 := ⟨fuel - 1, by omega⟩
    have h0 : E.busy s.hw = true := h.1 0 (Nat.succ_pos m)
    have hshift : BusyFor E (E.poll s.hw) m := by
      constructor
      · intro k hk
        have := h.1 (k + 1) (Nat.succ_lt_succ hk)
        simpa [Function.iterate_succ_apply] using this
      · have := h.2
        simpa [Function.iterate_succ_apply] using this
    have := ih f ⟨E.poll s.hw, s.log ++ [Op.sha_ll_busy (E.busy s.hw)]⟩ hshift (by omega)
    simp only [sha_hal_wait_idle, sha_ll_busy, h0]
    rw [h0] at this
    simp only [this, Function.iterate_succ_apply, wait_log, List.replicate_succ,
      List.append_assoc, List.cons_append, List.nil_append, List.singleton_append]

/-- The log of a wait, written out. -/
theorem wait_log_eq (n : Nat) :
    wait_log n = List.replicate n (Op.sha_ll_busy true) ++ [Op.sha_ll_busy false] := rfl

/-- C7. If the engine reports busy on its first N-1 busy queries and not-busy
on the N-th (N at least 1), sha_hal_wait_idle returns after exactly N busy
queries: it returns with any allowance of at least N queries and with none
below N, the hardware has seen N queries and nothing else, and the log gains
N-1 busy answers followed by one not-busy answer.  If the engine never reports
not-busy, the wait returns for no number of queries: there is no timeout. -/
theorem sha_hal_wait_idle_exact_polls (E : Engine σ) (s : Hal σ) (N : Nat) :
    (1 ≤ N → BusyFor E s.hw (N - 1) →
      (∀ fuel, N ≤ fuel → sha_hal_wait_idle E fuel s =
        some ⟨E.poll^[N] s.hw,
          s.log ++ (List.replicate (N - 1) (Op.sha_ll_busy true) ++ [Op.sha_ll_busy false])⟩) ∧
      (∀ fuel, fuel < N → sha_hal_wait_idle E fuel s = none) ∧
      (List.replicate (N - 1) (Op.sha_ll_busy true) ++ [Op.sha_ll_busy false]).length = N) ∧
    (NeverIdle E s.hw → ∀ fuel, sha_hal_wait_idle E fuel s = none) := by
  refine ⟨fun hN h => ⟨?_, ?_, ?_⟩, fun h fuel => wait_idle_none E fuel s (fun k _ => h k)⟩
  · intro fuel hf
    have := wait_idle_some E (N - 1) fuel s h (by omega)
    rw [this, wait_log_eq]
    have e : N - 1 + 1 = N := by omega
    rw [e]
  · intro fuel hf
    exact wait_idle_none E fuel s (fun k hk => h.1 k (by omega))
  · simp; omega

/-- Witness for C7: the simulated engine idle on its third query, and the stuck
one. -/
theorem sha_hal_wait_idle_exact_polls_witness :
    (sha_hal_wait_idle simEngine 3 (sim_zero 2 0)).map Hal.log =
        some [Op.sha_ll_busy true, Op.sha_ll_busy true, Op.sha_ll_busy false] ∧
      sha_hal_wait_idle simEngine 2 (sim_zero 2 0) = none ∧
      (∀ fuel, sha_hal_wait_idle simEngine fuel sim_stuck = none) := by
  have h := sha_hal_wait_idle_exact_polls simEngine (sim_zero 2 0) 3
  have h2 := sha_hal_wait_idle_exact_polls simEngine sim_stuck 0
  refine ⟨?_, ?_, ?_⟩
  · rw [(h.1 (by decide) (by decide)).1 3 (by decide)]; rfl
  · exact (h.1 (by decide) (by decide)).2.1 2 (by decide)
  · refine h2.2 ?_
    intro k
    have : ∀ k, simEngine.poll^[k] sim_stuck.hw = sim_stuck.hw := by
      intro k
      induction k with
      | zero => rfl
      | succ j ih => rw [Function.iterate_succ_apply]; exact ih
    rw [this]; rfl

/-! ## Block hashing -/

/-- What a block hash does once the engine is idle after `n` busy answers. -/
theorem hash_block_some (E : Engine σ) (fuel : Nat) (sha_type : esp_sha_type)
    (data_block : Nat → Nat) (block_word_len : Nat) (first_block : Bool) (s : Hal σ) (n : Nat)
    (h : BusyFor E s.hw n) (hf : n < fuel) :
    sha_hal_hash_block E fuel sha_type data_block block_word_len first_block s =
      some ⟨E.exec (block_trigger first_block sha_type)
              (E.exec (Op.sha_ll_fill_text_block data_block block_word_len)
                (E.poll^[n + 1] s.hw)),
            s.log ++ wait_log n ++
              [Op.sha_ll_fill_text_block data_block block_word_len,
               block_trigger first_block sha_type]⟩ := by
  cases first_block <;>
    simp [sha_hal_hash_block, wait_idle_some E n fuel s h hf, issue, block_trigger]

/-- C5. With the engine idle after `n1` busy answers, sha_hal_hash_block returns,
and what it adds to the log after the wait is first the load of exactly the
given block (data and word length) and then exactly one trigger for the given
variant: start when first_block is true, continue when it is false.  Two calls
in sequence with first_block true and then false make the engine receive start
and then continue, each after the load of its own block. -/
theorem sha_hal_hash_block_load_then_trigger (E : Engine σ) (fuel : Nat)
    (sha_type : esp_sha_type) (data_block : Nat → Nat) (block_word_len : Nat)
    (data_block2 : Nat → Nat) (block_word_len2 : Nat) (first_block : Bool) (s : Hal σ)
    (n1 n2 : Nat)
    (h1 : BusyFor E s.hw n1) (hf1 : n1 < fuel)
    (h2 : BusyFor E
      (E.exec (Op.sha_ll_start_block sha_type)
        (E.exec (Op.sha_ll_fill_text_block data_block block_word_len) (E.poll^[n1 + 1] s.hw)))
      n2)
    (hf2 : n2 < fuel) :
    (sha_hal_hash_block E fuel sha_type data_block block_word_len first_block s).map Hal.log =
      some (s.log ++ (List.replicate n1 (Op.sha_ll_busy true) ++
        [Op.sha_ll_busy false,
         Op.sha_ll_fill_text_block data_block block_word_len,
         if first_block then Op.sha_ll_start_block sha_type
         else Op.sha_ll_continue_block sha_type])) ∧
    ((sha_hal_hash_block E fuel sha_type data_block block_word_len true s).bind
        (sha_hal_hash_block E fuel sha_type data_block2 block_word_len2 false)).map Hal.log =
      some (s.log ++ (List.replicate n1 (Op.sha_ll_busy true) ++
        [Op.sha_ll_busy false,
         Op.sha_ll_fill_text_block data_block block_word_len,
         Op.sha_ll_start_block sha_type] ++
        (List.replicate n2 (Op.sha_ll_busy true) ++
        [Op.sha_ll_busy false,
         Op.sha_ll_fill_text_block data_block2 block_word_len2,
         Op.sha_ll_continue_block sha_type]))) := by
  constructor
  · rw [hash_block_some E fuel sha_type data_block block_word_len first_block s n1 h1 hf1]
    cases first_block <;> simp [wait_log, block_trigger]
  · rw [hash_block_some E fuel sha_type data_block block_word_len true s n1 h1 hf1]
    simp only [Option.some_bind]
    rw [hash_block_some E fuel sha_type data_block2 block_word_len2 false _ n2
      (by simpa [block_trigger] using h2) hf2]
    simp [wait_log, block_trigger]

/-- Witness for C5: a 256-bit hash of two blocks on the simulated engine, idle at
once for the first block and busy for two queries after the start. -/
theorem sha_hal_hash_block_load_then_trigger_witness :
    ((sha_hal_hash_block simEngine 3 esp_sha_type.SHA2_256 (fun i => i + 1) 16 true
        (sim_zero 0 2)).bind
      (sha_hal_hash_block simEngine 3 esp_sha_type.SHA2_256 (fun i => i + 2) 16 false)).map
        Hal.log =
      some ([] ++ (List.replicate 0 (Op.sha_ll_busy true) ++
        [Op.sha_ll_busy false,
         Op.sha_ll_fill_text_block (fun i => i + 1) 16,
         Op.sha_ll_start_block esp_sha_type.SHA2_256] ++
        (List.replicate 2 (Op.sha_ll_busy true) ++
        [Op.sha_ll_busy false,
         Op.sha_ll_fill_text_block (fun i => i + 2) 16,
         Op.sha_ll_continue_block esp_sha_type.SHA2_256]))) :=
  (sha_hal_hash_block_load_then_trigger simEngine 3 esp_sha_type.SHA2_256 (fun i => i + 1) 16
    (fun i => i + 2) 16 true (sim_zero 0 2) 0 2 (by decide) (by decide) (by decide)
    (by decide)).2

/-! ## The extended-digest initialiser -/

/-- C9. For every t_string and t_len, sha_hal_sha512_init_hash writes t_string
and then t_len, unchanged, to the two parameter registers, then issues exactly
one start for SHA2_512T, and only then polls the engine: with the engine idle
after `n` busy answers it returns after `n + 1` queries, the last one answered
not-busy, and with fewer queries allowed it has not returned. -/
theorem sha_hal_sha512_init_hash_sequence (E : Engine σ) (fuel : Nat) (t_string t_len : Nat)
    (s : Hal σ) (n : Nat)
    (h : BusyFor E
      (E.exec (Op.sha_ll_start_block esp_sha_type.SHA2_512T)
        (E.exec (Op.sha_ll_t_len_set t_len) (E.exec (Op.sha_ll_t_string_set t_string) s.hw)))
      n)
    (hf : n < fuel) :
    sha_hal_sha512_init_hash E fuel t_string t_len s =
      some ⟨E.poll^[n + 1]
              (E.exec (Op.sha_ll_start_block esp_sha_type.SHA2_512T)
                (E.exec (Op.sha_ll_t_len_set t_len)
                  (E.exec (Op.sha_ll_t_string_set t_string) s.hw))),
            s.log ++ ([Op.sha_ll_t_string_set t_string, Op.sha_ll_t_len_set t_len,
                Op.sha_ll_start_block esp_sha_type.SHA2_512T] ++
              (List.replicate n (Op.sha_ll_busy true) ++ [Op.sha_ll_busy false]))⟩ ∧
    (∀ fuel1, fuel1 ≤ n → sha_hal_sha512_init_hash E fuel1 t_string t_len s = none) := by
  constructor
  · unfold sha_hal_sha512_init_hash
    simp only []
    rw [wait_idle_some E n fuel _ (by simpa [issue] using h) hf]
    simp [issue, wait_log]
  · intro fuel1 hle
    unfold sha_hal_sha512_init_hash
    simp only []
    exact wait_idle_none E fuel1 _ (fun k hk => by simpa [issue] using h.1 k (by omega))

/-- Witness for C9: the simulated engine, busy for three queries after a start. -/
theorem sha_hal_sha512_init_hash_sequence_witness :
    (sha_hal_sha512_init_hash simEngine 4 224 3 (sim_zero 0 3)).map Hal.log =
      some [Op.sha_ll_t_string_set 224, Op.sha_ll_t_len_set 3,
        Op.sha_ll_start_block esp_sha_type.SHA2_512T,
        Op.sha_ll_busy true, Op.sha_ll_busy true, Op.sha_ll_busy true,
        Op.sha_ll_busy false] := by
  rw [(sha_hal_sha512_init_hash_sequence simEngine 4 224 3 (sim_zero 0 3) 3 (by decide)
    (by decide)).1]
  rfl

/-! ## DMA hashing -/

/-- The backend set-up is the sequence of primitive calls listed for it. -/
theorem dma_init_eq (cfg : soc_caps) (dma : dma_backend) (E : Engine σ) (input : Nat)
    (s : Hal σ) :
    sha_hal_dma_init cfg dma E input s =
      ⟨exec_all E (dma_init_ops cfg dma (ptr_to_uint32 input)) s.hw,
       s.log ++ dma_init_ops cfg dma (ptr_to_uint32 input)⟩ := by
  cases dma
  · cases hx : cfg.SOC_GDMA_SUPPORT_EXTMEM <;>
      simp [sha_hal_dma_init, sha_hal_dma_init_general, dma_init_ops, general_dma_ops, issue,
        exec_all, hx]
  · simp [sha_hal_dma_init, sha_hal_dma_init_crypto, dma_init_ops, crypto_dma_ops, issue,
      exec_all]

/-- What a DMA hash does once the engine is idle after `n` busy answers. -/
theorem hash_dma_some (cfg : soc_caps) (dma : dma_backend) (E : Engine σ) (fuel : Nat)
    (sha_type : esp_sha_type) (input num_blocks : Nat) (first_block : Bool) (s : Hal σ)
    (n : Nat) (h : BusyFor E s.hw n) (hf : n < fuel) :
    sha_hal_hash_dma cfg dma E fuel sha_type input num_blocks first_block s =
      some ⟨E.exec (dma_trigger first_block sha_type)
              (E.exec (Op.sha_ll_set_block_num num_blocks)
                (exec_all E (dma_init_ops cfg dma (ptr_to_uint32 input))
                  (E.poll^[n + 1] s.hw))),
            s.log ++ wait_log n ++ dma_init_ops cfg dma (ptr_to_uint32 input) ++
              [Op.sha_ll_set_block_num num_blocks, dma_trigger first_block sha_type]⟩ := by
  cases first_block <;>
    simp [sha_hal_hash_dma, wait_idle_some E n fuel s h hf, dma_init_eq, issue, dma_trigger]

/-- C6, as the claim states it, fails on the crypto DMA backend: a DMA hash there
sets the DMA mode, resets, binds the descriptor address and starts the link,
and no call that turns off descriptor burst, data burst or automatic write-back
is made. -/
theorem sha_hal_hash_dma_crypto_disables_nothing :
    (sha_hal_hash_dma cfg_full dma_backend.SOC_SHA_CRYPTO_DMA simEngine 1
        esp_sha_type.SHA2_256 1073414144 2 true (sim_zero 0 0)).map Hal.log =
      some [Op.sha_ll_busy false,
        Op.crypto_dma_ll_set_mode 1,
        Op.crypto_dma_ll_reset,
        Op.crypto_dma_ll_outlink_set 1073414144,
        Op.crypto_dma_ll_outlink_start,
        Op.sha_ll_set_block_num 2,
        Op.sha_ll_start_dma esp_sha_type.SHA2_256] ∧
    (sha_hal_hash_dma cfg_full dma_backend.SOC_SHA_CRYPTO_DMA simEngine 1
        esp_sha_type.SHA2_256 1073414144 2 true (sim_zero 0 0)).map
      (fun s => s.log.any Op.disables_burst_or_write_back) = some false := by
  constructor <;> rfl

/-- C6, amended. With the engine idle after `n` busy answers and a descriptor
address that fits the 32-bit register, sha_hal_hash_dma first sets up the
backend compiled in, then sets the block count to exactly num_blocks, then
issues exactly one DMA trigger for the variant (start when first_block is true,
continue when false).  On the general DMA backend the set-up turns off
descriptor burst, data burst and automatic write-back, connects the channel to
the SHA peripheral, (with external memory support) widens the FIFO and sets the
block size, binds the descriptor address, resets both directions and starts the
channel.  On the crypto DMA backend the set-up selects the SHA mode, resets,
binds the descriptor address and starts the link; it turns off nothing. -/
theorem sha_hal_hash_dma_sequence (cfg : soc_caps) (dma : dma_backend) (E : Engine σ)
    (fuel : Nat) (sha_type : esp_sha_type) (input num_blocks : Nat) (first_block : Bool)
    (s : Hal σ) (n : Nat)
    (hptr : input < 2 ^ 32) (h : BusyFor E s.hw n) (hf : n < fuel) :
    (sha_hal_hash_dma cfg dma E fuel sha_type input num_blocks first_block s).map Hal.log =
      some (s.log ++ (List.replicate n (Op.sha_ll_busy true) ++ [Op.sha_ll_busy false]) ++
        (match dma with
          | .SOC_SHA_GENERAL_DMA => general_dma_ops cfg input
          | .SOC_SHA_CRYPTO_DMA => crypto_dma_ops cfg input) ++
        [Op.sha_ll_set_block_num num_blocks,
         if first_block then Op.sha_ll_start_dma sha_type
         else Op.sha_ll_continue_dma sha_type]) ∧
    (general_dma_ops cfg input).filter Op.disables_burst_or_write_back =
      [Op.gdma_ll_tx_enable_descriptor_burst cfg.SOC_GDMA_SHA_DMA_CHANNEL false,
       Op.gdma_ll_tx_enable_data_burst cfg.SOC_GDMA_SHA_DMA_CHANNEL false,
       Op.gdma_ll_tx_enable_auto_write_back cfg.SOC_GDMA_SHA_DMA_CHANNEL false] ∧
    (crypto_dma_ops cfg input).any Op.disables_burst_or_write_back = false := by
  have hp : ptr_to_uint32 input = input := Nat.mod_eq_of_lt hptr
  refine ⟨?_, ?_, ?_⟩
  · rw [hash_dma_some cfg dma E fuel sha_type input num_blocks first_block s n h hf, hp]
    cases dma <;> cases first_block <;> simp [wait_log, dma_trigger, dma_init_ops]
  · cases hx : cfg.SOC_GDMA_SUPPORT_EXTMEM <;>
      simp [general_dma_ops, hx, List.filter, Op.disables_burst_or_write_back]
  · simp [crypto_dma_ops, Op.disables_burst_or_write_back]

/-- Witness for C6, amended: a two-block DMA hash over the general DMA backend
with external memory support, the engine busy for one query. -/
theorem sha_hal_hash_dma_sequence_witness :
    (sha_hal_hash_dma cfg_full dma_backend.SOC_SHA_GENERAL_DMA simEngine 2
        esp_sha_type.SHA2_256 1073414144 2 false (sim_zero 1 0)).map Hal.log =
      some ([] ++ (List.replicate 1 (Op.sha_ll_busy true) ++ [Op.sha_ll_busy false]) ++
        general_dma_ops cfg_full 1073414144 ++
        [Op.sha_ll_set_block_num 2, Op.sha_ll_continue_dma esp_sha_type.SHA2_256]) :=
  (sha_hal_hash_dma_sequence cfg_full dma_backend.SOC_SHA_GENERAL_DMA simEngine 2
    esp_sha_type.SHA2_256 1073414144 2 false (sim_zero 1 0) 1 (by decide) (by decide)
    (by decide)).1

/-! ## Digest transfer -/

/-- The fault-injection loop runs to its end exactly when every word it visits
is zero. -/
theorem fault_check_loop_false_iff (w : Nat → Nat) :
    ∀ (remaining i : Nat),
      fault_check_loop w remaining i = false ↔ ∀ j, j < remaining → w (i + j) = 0 := by
  intro remaining
  induction remaining with
  | zero => intro i; simp [fault_check_loop]
  | succ r ih =>
    intro i
    by_cases hw : w i = 0
    · simp only [fault_check_loop, hw, ne_eq, not_true_eq_false, if_false]
      rw [ih (i + 1)]
      constructor
      · intro h j hj
        cases j with
        | zero => simpa using hw
        | succ k =>
          have := h k (by omega)
          rwa [show i + (k + 1) = i + 1 + k by omega]
      · intro h j hj
        have := h (j + 1) (by omega)
        rwa [show i + (j + 1) = i + 1 + j by omega] at this
    · simp only [fault_check_loop, ne_eq, hw, not_false_eq_true, if_true]
      constructor
      · intro h; cases h
      · intro h
        exact absurd (by simpa using h 0 (Nat.succ_pos r)) hw

/-- What a digest read does once the engine is idle `n` busy answers after the
load: it copies, then returns or aborts as the fault-injection loop decides. -/
theorem read_digest_some (cfg : soc_caps) (E : Engine σ) (fuel : Nat) (sha_type : esp_sha_type)
    (digest_state : Nat → Nat) (s : Hal σ) (n : Nat)
    (h : BusyFor E (E.exec (Op.sha_ll_load sha_type) s.hw) n) (hf : n < fuel) :
    sha_hal_read_digest cfg E fuel sha_type digest_state s =
      if fault_check_loop (copied_digest cfg E sha_type digest_state (hw_at_read E sha_type s.hw n))
          (state_length cfg sha_type) 0
      then some (Exit.returned (copied_digest cfg E sha_type digest_state
        (hw_at_read E sha_type s.hw n)) (hal_after_read cfg E sha_type s n))
      else some (Exit.aborted (copied_digest cfg E sha_type digest_state
        (hw_at_read E sha_type s.hw n)) (hal_after_read cfg E sha_type s n)) := by
  unfold sha_hal_read_digest
  simp only []
  rw [wait_idle_some E n fuel _ (by simpa [issue] using h) hf]
  unfold copied_digest
  simp [sha_ll_read_digest, issue, hw_at_read, hal_after_read, wait_log]

/-- A digest read has not finished while the engine is still busy after the
load. -/
theorem read_digest_none (cfg : soc_caps) (E : Engine σ) (fuel : Nat) (sha_type : esp_sha_type)
    (digest_state : Nat → Nat) (s : Hal σ)
    (h : ∀ k, k < fuel → E.busy (E.poll^[k] (E.exec (Op.sha_ll_load sha_type) s.hw)) = true) :
    sha_hal_read_digest cfg E fuel sha_type digest_state s = none := by
  unfold sha_hal_read_digest
  simp only []
  rw [wait_idle_none E fuel _ (by simpa [issue] using h)]

/-- A digest read whose copied words are all zero aborts. -/
theorem read_digest_aborts (cfg : soc_caps) (E : Engine σ) (fuel : Nat)
    (sha_type : esp_sha_type) (digest_state : Nat → Nat) (s : Hal σ) (n : Nat)
    (h : BusyFor E (E.exec (Op.sha_ll_load sha_type) s.hw) n) (hf : n < fuel)
    (hzero : ∀ i, i < state_length cfg sha_type →
      E.digest_reg sha_type (hw_at_read E sha_type s.hw n) i = 0) :
    sha_hal_read_digest cfg E fuel sha_type digest_state s =
      some (Exit.aborted (copied_digest cfg E sha_type digest_state
        (hw_at_read E sha_type s.hw n)) (hal_after_read cfg E sha_type s n)) := by
  rw [read_digest_some cfg E fuel sha_type digest_state s n h hf]
  have hloop : fault_check_loop
      (copied_digest cfg E sha_type digest_state (hw_at_read E sha_type s.hw n))
      (state_length cfg sha_type) 0 = false := by
    rw [fault_check_loop_false_iff]
    intro j hj
    simp [copied_digest, hj, hzero j hj]
  simp [hloop]

/-- A digest read that copies a non-zero word returns. -/
theorem read_digest_returns (cfg : soc_caps) (E : Engine σ) (fuel : Nat)
    (sha_type : esp_sha_type) (digest_state : Nat → Nat) (s : Hal σ) (n : Nat)
    (h : BusyFor E (E.exec (Op.sha_ll_load sha_type) s.hw) n) (hf : n < fuel)
    (hnz : ∃ i, i < state_length cfg sha_type ∧
      E.digest_reg sha_type (hw_at_read E sha_type s.hw n) i ≠ 0) :
    sha_hal_read_digest cfg E fuel sha_type digest_state s =
      some (Exit.returned (copied_digest cfg E sha_type digest_state
        (hw_at_read E sha_type s.hw n)) (hal_after_read cfg E sha_type s n)) := by
  rw [read_digest_some cfg E fuel sha_type digest_state s n h hf]
  have hloop : fault_check_loop
      (copied_digest cfg E sha_type digest_state (hw_at_read E sha_type s.hw n))
      (state_length cfg sha_type) 0 = true := by
    cases hc : fault_check_loop
      (copied_digest cfg E sha_type digest_state (hw_at_read E sha_type s.hw n))
      (state_length cfg sha_type) 0 with
    | true => rfl
    | false =>
      rw [fault_check_loop_false_iff] at hc
      obtain ⟨i, hi, hne⟩ := hnz
      have := hc i hi
      simp [copied_digest, hi] at this
      exact absurd this hne
  simp [hloop]

/-- An engine that echoes written state keeps its digest words over any number
of busy queries. -/
theorem echoes_iterate (E : Engine σ) (he : Echoes E) (t : esp_sha_type) (i : Nat) :
    ∀ (k : Nat) (hw : σ), E.digest_reg t (E.poll^[k] hw) i = E.digest_reg t hw i := by
  intro k
  induction k with
  | zero => intro hw; rfl
  | succ j ih =>
    intro hw
    rw [Function.iterate_succ_apply, ih, he.poll]

/-- The simulated engine echoes written state. -/
theorem simEngine_echoes : Echoes simEngine where
  write := by
    intro t w len hw i hi
    simp [simEngine, hi]
  load := by intro t hw i; rfl
  poll := by intro t hw i; rfl

/-- C2. Whenever the digest words the engine holds at the time of the copy (the
engine idle, `n` busy answers after the load) are all exactly zero,
sha_hal_read_digest takes the abort path, and for no number of busy queries
does it return a result to the caller.  The hardware state `s` is arbitrary, so
this holds however the zero state came about, a digest write included; it
holds for every variant, the supported ones among them. -/
theorem sha_hal_read_digest_zero_state_aborts (cfg : soc_caps) (E : Engine σ) (fuel : Nat)
    (sha_type : esp_sha_type) (digest_state : Nat → Nat) (s : Hal σ) (n : Nat)
    (hidle : BusyFor E (E.exec (Op.sha_ll_load sha_type) s.hw) n) (hfuel : n < fuel)
    (hzero : ∀ i, i < state_length cfg sha_type →
      E.digest_reg sha_type (E.poll^[n + 1] (E.exec (Op.sha_ll_load sha_type) s.hw)) i = 0) :
    (∃ out s1, sha_hal_read_digest cfg E fuel sha_type digest_state s =
      some (Exit.aborted out s1)) ∧
    (∀ fuel1 out s1, sha_hal_read_digest cfg E fuel1 sha_type digest_state s ≠
      some (Exit.returned out s1)) := by
  refine ⟨⟨_, _, read_digest_aborts cfg E fuel sha_type digest_state s n hidle hfuel hzero⟩, ?_⟩
  intro fuel1 out s1
  by_cases hlt : n < fuel1
  · rw [read_digest_aborts cfg E fuel1 sha_type digest_state s n hidle hlt hzero]
    intro hc
    cases hc
  · rw [read_digest_none cfg E fuel1 sha_type digest_state s
      (fun k hk => hidle.1 k (by omega))]
    intro hc
    cases hc

/-- Witness for C2: a 256-bit read on the simulated engine after a digest write
of zero words over a non-zero digest, the engine busy for two queries after the
load. -/
theorem sha_hal_read_digest_zero_state_aborts_witness :
    (∃ out s1, sha_hal_read_digest cfg_full simEngine 3 esp_sha_type.SHA2_256 (fun _ => 9)
      (sha_hal_write_digest cfg_full simEngine esp_sha_type.SHA2_256 (fun _ => 0)
        (sim_counting 0 2)) = some (Exit.aborted out s1)) ∧
    (∀ fuel1 out s1, sha_hal_read_digest cfg_full simEngine fuel1 esp_sha_type.SHA2_256
      (fun _ => 9)
      (sha_hal_write_digest cfg_full simEngine esp_sha_type.SHA2_256 (fun _ => 0)
        (sim_counting 0 2)) ≠ some (Exit.returned out s1)) :=
  sha_hal_read_digest_zero_state_aborts cfg_full simEngine 3 esp_sha_type.SHA2_256 (fun _ => 9)
    (sha_hal_write_digest cfg_full simEngine esp_sha_type.SHA2_256 (fun _ => 0)
      (sim_counting 0 2)) 2 (by decide) (by decide) (by decide)

/-- C3. Whenever at least one of the state_length digest words the engine holds
at the time of the copy (the engine idle, `n` busy answers after the load) is
non-zero, sha_hal_read_digest returns to the caller and never aborts, and the
first state_length words of the buffer it hands back are, word for word and in
order, the digest words the engine holds at that time. -/
theorem sha_hal_read_digest_nonzero_returns (cfg : soc_caps) (E : Engine σ) (fuel : Nat)
    (sha_type : esp_sha_type) (digest_state : Nat → Nat) (s : Hal σ) (n : Nat)
    (hidle : BusyFor E (E.exec (Op.sha_ll_load sha_type) s.hw) n) (hfuel : n < fuel)
    (hnz : ∃ i, i < state_length cfg sha_type ∧
      E.digest_reg sha_type (E.poll^[n + 1] (E.exec (Op.sha_ll_load sha_type) s.hw)) i ≠ 0) :
    (∃ out s1, sha_hal_read_digest cfg E fuel sha_type digest_state s =
        some (Exit.returned out s1) ∧
      ∀ i, i < state_length cfg sha_type →
        out i =
          E.digest_reg sha_type (E.poll^[n + 1] (E.exec (Op.sha_ll_load sha_type) s.hw)) i) ∧
    (∀ fuel1 out s1, sha_hal_read_digest cfg E fuel1 sha_type digest_state s ≠
      some (Exit.aborted out s1)) := by
  refine ⟨⟨_, _, read_digest_returns cfg E fuel sha_type digest_state s n hidle hfuel hnz, ?_⟩,
    ?_⟩
  · intro i hi
    simp [copied_digest, hw_at_read, hi]
  · intro fuel1 out s1
    by_cases hlt : n < fuel1
    · rw [read_digest_returns cfg E fuel1 sha_type digest_state s n hidle hlt hnz]
      intro hc
      cases hc
    · rw [read_digest_none cfg E fuel1 sha_type digest_state s
        (fun k hk => hidle.1 k (by omega))]
      intro hc
      cases hc

/-- Witness for C3: a SHA1 read on the simulated engine whose digest word `i`
holds `i + 1`, busy for one query after the load. -/
theorem sha_hal_read_digest_nonzero_returns_witness :
    (∃ out s1, sha_hal_read_digest cfg_esp32 simEngine 2 esp_sha_type.SHA1 (fun _ => 0)
        (sim_counting 0 1) = some (Exit.returned out s1) ∧
      ∀ i, i < state_length cfg_esp32 esp_sha_type.SHA1 →
        out i = simEngine.digest_reg esp_sha_type.SHA1
          (simEngine.poll^[1 + 1]
            (simEngine.exec (Op.sha_ll_load esp_sha_type.SHA1) (sim_counting 0 1).hw)) i) ∧
    (∀ fuel1 out s1, sha_hal_read_digest cfg_esp32 simEngine fuel1 esp_sha_type.SHA1
      (fun _ => 0) (sim_counting 0 1) ≠ some (Exit.aborted out s1)) :=
  sha_hal_read_digest_nonzero_returns cfg_esp32 simEngine 2 esp_sha_type.SHA1 (fun _ => 0)
    (sim_counting 0 1) 1 (by decide) (by decide) ⟨0, by decide, by decide⟩

/-- C4. On an engine that echoes written state, for every variant and every
input buffer whose first state_length words are not all zero,
sha_hal_write_digest followed by sha_hal_read_digest (the engine idle `n` busy
answers after the load) returns to the caller with out[i] = in[i] for every
i below state_length; the write and the read both pass the same length,
state_length of the variant, to the hardware. -/
theorem sha_hal_write_then_read_digest_round_trip (cfg : soc_caps) (E : Engine σ) (fuel : Nat)
    (sha_type : esp_sha_type) (in_buffer out_buffer : Nat → Nat) (s : Hal σ) (n : Nat)
    (hecho : Echoes E)
    (hidle : BusyFor E
      (E.exec (Op.sha_ll_load sha_type)
        (E.exec (Op.sha_ll_write_digest sha_type in_buffer (state_length cfg sha_type)) s.hw))
      n)
    (hfuel : n < fuel)
    (hnz : ∃ i, i < state_length cfg sha_type ∧ in_buffer i ≠ 0) :
    ∃ out s1,
      sha_hal_read_digest cfg E fuel sha_type out_buffer
          (sha_hal_write_digest cfg E sha_type in_buffer s) = some (Exit.returned out s1) ∧
      (∀ i, i < state_length cfg sha_type → out i = in_buffer i) ∧
      s1.log = s.log ++
        ([Op.sha_ll_write_digest sha_type in_buffer (state_length cfg sha_type),
          Op.sha_ll_load sha_type] ++
        (List.replicate n (Op.sha_ll_busy true) ++
          [Op.sha_ll_busy false,
           Op.sha_ll_read_digest sha_type (state_length cfg sha_type)])) := by
  have hreg : ∀ i, i < state_length cfg sha_type →
      E.digest_reg sha_type
        (hw_at_read E sha_type (sha_hal_write_digest cfg E sha_type in_buffer s).hw n) i =
        in_buffer i := by
    intro i hi
    simp only [hw_at_read, sha_hal_write_digest, issue]
    rw [echoes_iterate E hecho, hecho.load, hecho.write _ _ _ _ _ hi]
  refine ⟨_, _, read_digest_returns cfg E fuel sha_type out_buffer
    (sha_hal_write_digest cfg E sha_type in_buffer s) n hidle hfuel ?_, ?_, ?_⟩
  · obtain ⟨i, hi, hne⟩ := hnz
    exact ⟨i, hi, by rw [hreg i hi]; exact hne⟩
  · intro i hi
    simp only [copied_digest, hi, if_true]
    exact hreg i hi
  · simp [hal_after_read, sha_hal_write_digest, issue]

/-- Witness for C4: a 512-bit digest written to and read back from the simulated
engine, busy for two queries after the load. -/
theorem sha_hal_write_then_read_digest_round_trip_witness :
    ∃ out s1,
      sha_hal_read_digest cfg_full simEngine 3 esp_sha_type.SHA2_512 (fun _ => 0)
          (sha_hal_write_digest cfg_full simEngine esp_sha_type.SHA2_512 (fun i => 100 + i)
            (sim_zero 0 2)) = some (Exit.returned out s1) ∧
      (∀ i, i < state_length cfg_full esp_sha_type.SHA2_512 → out i = (fun i => 100 + i) i) ∧
      s1.log = (sim_zero 0 2).log ++
        ([Op.sha_ll_write_digest esp_sha_type.SHA2_512 (fun i => 100 + i)
            (state_length cfg_full esp_sha_type.SHA2_512),
          Op.sha_ll_load esp_sha_type.SHA2_512] ++
        (List.replicate 2 (Op.sha_ll_busy true) ++
          [Op.sha_ll_busy false,
           Op.sha_ll_read_digest esp_sha_type.SHA2_512
             (state_length cfg_full esp_sha_type.SHA2_512)])) :=
  sha_hal_write_then_read_digest_round_trip cfg_full simEngine 3 esp_sha_type.SHA2_512
    (fun i => 100 + i) (fun _ => 0) (sim_zero 0 2) 2 simEngine_echoes (by decide) (by decide)
    ⟨0, by decide, by decide⟩

/-! ## Unsupported variants -/

/-- C8, as the claim states it, fails: on a target without the 384-bit variant,
state_length of SHA2_384 is 0, and a digest read for it on an idle engine
holding a non-zero digest ends in `abort()`, not in a return. -/
theorem sha_hal_read_digest_unsupported_example :
    state_length cfg_small esp_sha_type.SHA2_384 = 0 ∧
    (sim_counting 0 0).hw.digest 0 = 1 ∧
    ∃ out s1, sha_hal_read_digest cfg_small simEngine 1 esp_sha_type.SHA2_384 (fun _ => 7)
      (sim_counting 0 0) = some (Exit.aborted out s1) :=
  ⟨rfl, rfl, _, _, rfl⟩

/-- C8, amended. For a variant unsupported on the active target, state_length
is 0 and signals nothing; sha_hal_read_digest then copies zero words (the
caller's buffer is handed back unchanged, and the hardware is asked for 0
words) and, the engine idle `n` busy answers after the load, ends in the abort
path, because the fault-injection loop has no word to find non-zero; for no
number of busy queries does it return to the caller. -/
theorem sha_hal_read_digest_unsupported_aborts (cfg : soc_caps) (E : Engine σ) (fuel : Nat)
    (sha_type : esp_sha_type) (digest_state : Nat → Nat) (s : Hal σ) (n : Nat)
    (hunsup : state_length cfg sha_type = 0)
    (hidle : BusyFor E (E.exec (Op.sha_ll_load sha_type) s.hw) n) (hfuel : n < fuel) :
    sha_hal_read_digest cfg E fuel sha_type digest_state s =
      some (Exit.aborted digest_state
        ⟨E.exec (Op.sha_ll_read_digest sha_type 0)
            (E.poll^[n + 1] (E.exec (Op.sha_ll_load sha_type) s.hw)),
         s.log ++ ([Op.sha_ll_load sha_type] ++
           (List.replicate n (Op.sha_ll_busy true) ++
             [Op.sha_ll_busy false, Op.sha_ll_read_digest sha_type 0]))⟩) ∧
    (∀ fuel1 out s1, sha_hal_read_digest cfg E fuel1 sha_type digest_state s ≠
      some (Exit.returned out s1)) := by
  have hz : ∀ i, i < state_length cfg sha_type →
      E.digest_reg sha_type (hw_at_read E sha_type s.hw n) i = 0 := by
    intro i hi
    omega
  have hbuf : copied_digest cfg E sha_type digest_state (hw_at_read E sha_type s.hw n) =
      digest_state := by
    funext i
    simp [copied_digest, hunsup]
  constructor
  · rw [read_digest_aborts cfg E fuel sha_type digest_state s n hidle hfuel hz, hbuf]
    simp [hal_after_read, hw_at_read, hunsup]
  · intro fuel1 out s1
    by_cases hlt : n < fuel1
    · rw [read_digest_aborts cfg E fuel1 sha_type digest_state s n hidle hlt hz]
      intro hc
      cases hc
    · rw [read_digest_none cfg E fuel1 sha_type digest_state s
        (fun k hk => hidle.1 k (by omega))]
      intro hc
      cases hc

/-- Witness for C8, amended: an enumerator value outside the table, read on the
ESP32 configuration from an idle engine holding a non-zero digest. -/
theorem sha_hal_read_digest_unsupported_aborts_witness :
    sha_hal_read_digest cfg_esp32 simEngine 1 (esp_sha_type.other 8) (fun _ => 7)
        (sim_counting 0 0) =
      some (Exit.aborted (fun _ => 7)
        ⟨simEngine.exec (Op.sha_ll_read_digest (esp_sha_type.other 8) 0)
            (simEngine.poll^[0 + 1]
              (simEngine.exec (Op.sha_ll_load (esp_sha_type.other 8)) (sim_counting 0 0).hw)),
         (sim_counting 0 0).log ++ ([Op.sha_ll_load (esp_sha_type.other 8)] ++
           (List.replicate 0 (Op.sha_ll_busy true) ++
             [Op.sha_ll_busy false, Op.sha_ll_read_digest (esp_sha_type.other 8) 0]))⟩) :=
  (sha_hal_read_digest_unsupported_aborts cfg_esp32 simEngine 1 (esp_sha_type.other 8)
    (fun _ => 7) (sim_counting 0 0) 0 rfl (by decide) (by decide)).1

/-! ## Where the idle wait stands in each operation -/

/-- C10, as the claim states it, fails for the two digest transfers: a digest
read issues the load before its first busy query, and a digest write makes no
busy query at all. -/
theorem digest_transfer_not_preceded_by_wait :
    (sha_hal_read_digest cfg_full simEngine 2 esp_sha_type.SHA2_256 (fun _ => 0)
        (sim_counting 1 0)).map (fun e => e.hal.log) =
      some [Op.sha_ll_load esp_sha_type.SHA2_256, Op.sha_ll_busy false,
        Op.sha_ll_read_digest esp_sha_type.SHA2_256 8] ∧
    (sha_hal_read_digest cfg_full simEngine 2 esp_sha_type.SHA2_256 (fun _ => 0)
        (sim_counting 1 0)).map (fun e => opens_with_idle_wait e.hal.log) = some false ∧
    (sim_counting 1 0).log = [] ∧
    simEngine.busy (sim_counting 1 0).hw = true ∧
    (sha_hal_write_digest cfg_full simEngine esp_sha_type.SHA2_256 (fun i => i + 1)
        (sim_counting 1 0)).log.any Op.is_busy_query = false := by
  refine ⟨rfl, rfl, rfl, rfl, rfl⟩

/-- C10, amended. sha_hal_hash_block and sha_hal_hash_dma call the synchroniser
first: with the engine idle after `n` busy answers, everything they issue
(block load, DMA set-up, block count, trigger) comes after the busy query that
was answered not-busy.  sha_hal_read_digest issues the digest load first and
then waits, so only the copy of the digest words comes after the query
answered not-busy (`m` busy answers after the load).  sha_hal_write_digest
makes no busy query: the digest write is the one primitive it calls. -/
theorem idle_wait_position (cfg : soc_caps) (dma : dma_backend) (E : Engine σ) (fuel : Nat)
    (sha_type : esp_sha_type) (data_block : Nat → Nat) (block_word_len : Nat)
    (input num_blocks : Nat) (first_block : Bool) (digest_state : Nat → Nat) (s : Hal σ)
    (n m : Nat)
    (hidle : BusyFor E s.hw n) (hfuel : n < fuel)
    (hload : BusyFor E (E.exec (Op.sha_ll_load sha_type) s.hw) m) (hfuel2 : m < fuel) :
    (sha_hal_hash_block E fuel sha_type data_block block_word_len first_block s).map Hal.log =
      some (s.log ++ (List.replicate n (Op.sha_ll_busy true) ++
        [Op.sha_ll_busy false,
         Op.sha_ll_fill_text_block data_block block_word_len,
         block_trigger first_block sha_type])) ∧
    (sha_hal_hash_dma cfg dma E fuel sha_type input num_blocks first_block s).map Hal.log =
      some (s.log ++ (List.replicate n (Op.sha_ll_busy true) ++
        ([Op.sha_ll_busy false] ++ dma_init_ops cfg dma (ptr_to_uint32 input) ++
        [Op.sha_ll_set_block_num num_blocks, dma_trigger first_block sha_type]))) ∧
    (dma_init_ops cfg dma (ptr_to_uint32 input)).any Op.is_busy_query = false ∧
    (sha_hal_read_digest cfg E fuel sha_type digest_state s).map (fun e => e.hal.log) =
      some (s.log ++ ([Op.sha_ll_load sha_type] ++
        (List.replicate m (Op.sha_ll_busy true) ++
          [Op.sha_ll_busy false,
           Op.sha_ll_read_digest sha_type (state_length cfg sha_type)]))) ∧
    (sha_hal_write_digest cfg E sha_type digest_state s).log =
      s.log ++ [Op.sha_ll_write_digest sha_type digest_state (state_length cfg sha_type)] := by
  refine ⟨?_, ?_, ?_, ?_, rfl⟩
  · rw [hash_block_some E fuel sha_type data_block block_word_len first_block s n hidle hfuel]
    simp [wait_log]
  · rw [hash_dma_some cfg dma E fuel sha_type input num_blocks first_block s n hidle hfuel]
    simp [wait_log]
  · cases dma
    · cases hx : cfg.SOC_GDMA_SUPPORT_EXTMEM <;>
        simp [dma_init_ops, general_dma_ops, hx, Op.is_busy_query]
    · simp [dma_init_ops, crypto_dma_ops, Op.is_busy_query]
  · rw [read_digest_some cfg E fuel sha_type digest_state s m hload hfuel2]
    split <;> simp [Exit.hal, hal_after_read]

/-- Witness for C10, amended: the simulated engine, busy for one query at the
start and for two after a load. -/
theorem idle_wait_position_witness :
    (sha_hal_hash_block simEngine 3 esp_sha_type.SHA1 (fun i => i) 16 true
        (sim_counting 1 2)).map Hal.log =
      some ((sim_counting 1 2).log ++ (List.replicate 1 (Op.sha_ll_busy true) ++
        [Op.sha_ll_busy false,
         Op.sha_ll_fill_text_block (fun i => i) 16,
         block_trigger true esp_sha_type.SHA1])) :=
  (idle_wait_position cfg_full dma_backend.SOC_SHA_CRYPTO_DMA simEngine 3 esp_sha_type.SHA1
    (fun i => i) 16 1073414144 1 true (fun _ => 0) (sim_counting 1 2) 1 2 (by decide)
    (by decide) (by decide) (by decide)).1

end ShaHal
